import Mathlib

/-!
Verification of `sn_transfers/src/wallet/data_payments.rs`: the payment-quote
data model, its canonical signable-byte encoding, the expiration rule, and the
historical-consistency verification algorithm.

Modelling conventions:
* `SystemTime` is the number of nanoseconds since the Unix epoch as an `Int`
  (instants before the epoch are negative).
* `Duration` is a non-negative number of nanoseconds (`Nat`); `as_secs`
  truncates to whole seconds, as Rust's `Duration::as_secs` does.
* Rust's `SystemTime::duration_since` returns `Err` when the argument is later
  than the receiver; we model it with `Option`.
* A Rust panic (the `.expect` in `bytes_for_signing`) is modelled as `none`.
* `historical_verify` and `has_expired` read the wall clock; we pass the
  current instant `now` explicitly, capturing it once per call.
-/

namespace DataPayments

/-- The time in seconds that a quote is valid for (`QUOTE_EXPIRATION_SECS`). -/
def QUOTE_EXPIRATION_SECS : Nat := 3600

/-- Nanoseconds in one second, the resolution of Rust's `Duration`. -/
def nanosPerSec : Nat := 1000000000

/-- A wall-clock instant: nanoseconds since the Unix epoch (may be negative). -/
abbrev SystemTime := Int

/-- The Unix epoch instant. -/
def UNIX_EPOCH : SystemTime := 0

/-- A non-negative span of time in nanoseconds. -/
abbrev Duration := Nat

/-- `Duration::as_secs`: whole seconds, truncating. -/
def as_secs (d : Duration) : Nat := d / nanosPerSec

/-- `SystemTime::duration_since`: `now - earlier` when `earlier <= now`,
failure (`none`) when `earlier` is later than `now`. -/
def duration_since (now earlier : SystemTime) : Option Duration :=
  if earlier ≤ now then some (now - earlier).toNat else none

/-- Modelled from the spec: the opaque fixed-length (32-byte) content-address
type `XorName`, represented by its raw bytes (`to_vec`). Its definition is
external to the excerpt. -/
abbrev XorName := List Nat

/-- Modelled from the spec: the external token-amount type `NanoTokens`
(a non-negative integer amount in base units). -/
abbrev NanoTokens := Nat

/-- Little-endian 8-byte encoding of a 64-bit value (`u64::to_le_bytes`). -/
def u64_to_le_bytes (n : Nat) : List Nat :=
  [n % 256, n / 256 % 256, n / 256 ^ 2 % 256, n / 256 ^ 3 % 256,
   n / 256 ^ 4 % 256, n / 256 ^ 5 % 256, n / 256 ^ 6 % 256, n / 256 ^ 7 % 256]

/-- Modelled from the spec: `NanoTokens::to_bytes`, the amount's canonical
fixed-format byte encoding (external to the excerpt; the claims treat it as
an opaque canonical encoding, here the 8-byte rendering of the amount). -/
def cost_to_bytes (cost : NanoTokens) : List Nat := u64_to_le_bytes cost

/-- Modelled from the spec: the external transfer-record type, opaque to this
core beyond equality; represented by an opaque byte payload. -/
structure Transfer where
  payload : List Nat
deriving DecidableEq, Repr

/-- Modelled from the spec: the external public-key type identifying payment
recipients, opaque and equality-comparable. -/
structure MainPubkey where
  payload : List Nat
deriving DecidableEq, Repr

/-- `QuotingMetrics`: a node's self-reported operating snapshot. -/
structure QuotingMetrics where
  close_records_stored : Nat
  max_records : Nat
  received_payment_count : Nat
  live_time : Nat
deriving DecidableEq, Repr

/-- `QuotingMetrics::new`: the all-zero snapshot. -/
def QuotingMetrics.new : QuotingMetrics :=
  { close_records_stored := 0, max_records := 0
    received_payment_count := 0, live_time := 0 }

/-- `PaymentQuote`: a signed record binding content address, price, timestamp
and a metrics snapshot. -/
structure PaymentQuote where
  content : XorName
  cost : NanoTokens
  timestamp : SystemTime
  quoting_metrics : QuotingMetrics
  signature : List Nat
deriving DecidableEq, Repr

/-- `Payment`: the transfers made plus the quote they pay for. -/
structure Payment where
  transfers : List Transfer
  quote : PaymentQuote
deriving DecidableEq, Repr

/-- `PaymentDetails`: node-local bookkeeping for one data payment. -/
structure PaymentDetails where
  recipient : MainPubkey
  peer_id_bytes : List Nat
  transfer : Transfer × NanoTokens
  royalties : Transfer × NanoTokens
  quote : PaymentQuote
deriving DecidableEq, Repr

/-- `PaymentDetails::to_payment`: create a `Payment` for a `PaymentDetails`. -/
def PaymentDetails.to_payment (self : PaymentDetails) : Payment :=
  { transfers := [self.transfer.1, self.royalties.1]
    quote := self.quote }

/-- `PaymentQuote::bytes_for_signing`: the canonical signable byte buffer.
The externally supplied codec (`rmp_serde::to_vec`) is passed as `ser`
(`none` models a serialization error). The `.expect` on the epoch duration
is modelled by returning `none` (panic) when `timestamp` precedes the epoch. -/
def bytes_for_signing (ser : QuotingMetrics → Option (List Nat))
    (xorname : XorName) (cost : NanoTokens) (timestamp : SystemTime)
    (quoting_metrics : QuotingMetrics) : Option (List Nat) :=
  match duration_since timestamp UNIX_EPOCH with
  | none => none
  | some sinceEpoch =>
    let bytes := xorname
    let bytes := bytes ++ cost_to_bytes cost
    let bytes := bytes ++ u64_to_le_bytes (as_secs sinceEpoch)
    let serialised_quoting_metrics :=
      match ser quoting_metrics with
      | some quoting_metrics_vec => quoting_metrics_vec
      | none => []
    let bytes := bytes ++ serialised_quoting_metrics
    some bytes

/-- `PaymentQuote::has_expired`, with the wall-clock read passed as `now`. -/
def has_expired (self : PaymentQuote) (now : SystemTime) : Bool :=
  match duration_since now self.timestamp with
  | none => true
  | some dur => decide (as_secs dur > QUOTE_EXPIRATION_SECS)

/-- `PaymentQuote::is_newer_than`: strict timestamp comparison. -/
def is_newer_than (self other : PaymentQuote) : Bool :=
  decide (other.timestamp < self.timestamp)

/-- `PaymentQuote::historical_verify`, with the wall clock passed as `now`
(the source reads `now` once per `elapsed()` call; the two reads are modelled
by the same captured instant). `live_time` is `u64` in the source and its
subtraction is unchecked; `Nat` subtraction agrees with it on every path the
function reaches (see `historical_verify_checked`). -/
def historical_verify (self other : PaymentQuote) (now : SystemTime) : Bool :=
  let self_is_newer := is_newer_than self other
  let old_quote := if self_is_newer then other else self
  let new_quote := if self_is_newer then self else other
  if new_quote.quoting_metrics.live_time < old_quote.quoting_metrics.live_time then
    false
  else
    match duration_since now old_quote.timestamp with
    | none => false
    | some old_elapsed =>
      match duration_since now new_quote.timestamp with
      | none => false
      | some new_elapsed =>
        let time_diff := as_secs old_elapsed - as_secs new_elapsed
        let live_time_diff :=
          new_quote.quoting_metrics.live_time - old_quote.quoting_metrics.live_time
        if live_time_diff > time_diff + 10 then
          false
        else if new_quote.quoting_metrics.close_records_stored + 20
              < new_quote.quoting_metrics.max_records
            && new_quote.quoting_metrics.close_records_stored
              < old_quote.quoting_metrics.close_records_stored then
          false
        else if new_quote.quoting_metrics.received_payment_count
            < old_quote.quoting_metrics.received_payment_count then
          false
        else
          true

/-- Nat subtraction that reports (`none`) instead of truncating on underflow:
used to show the source's unchecked `u64` subtraction cannot underflow. -/
def checked_sub (a b : Nat) : Option Nat :=
  if b ≤ a then some (a - b) else none

/-- `historical_verify` with the unchecked `live_time` subtraction replaced by
`checked_sub`; `none` marks the underflow the source would panic or wrap on. -/
def historical_verify_checked (self other : PaymentQuote) (now : SystemTime) :
    Option Bool :=
  let self_is_newer := is_newer_than self other
  let old_quote := if self_is_newer then other else self
  let new_quote := if self_is_newer then self else other
  if new_quote.quoting_metrics.live_time < old_quote.quoting_metrics.live_time then
    some false
  else
    match duration_since now old_quote.timestamp with
    | none => some false
    | some old_elapsed =>
      match duration_since now new_quote.timestamp with
      | none => some false
      | some new_elapsed =>
        let time_diff := as_secs old_elapsed - as_secs new_elapsed
        match checked_sub new_quote.quoting_metrics.live_time
            old_quote.quoting_metrics.live_time with
        | none => none
        | some live_time_diff =>
          if live_time_diff > time_diff + 10 then
            some false
          else if new_quote.quoting_metrics.close_records_stored + 20
                < new_quote.quoting_metrics.max_records
              && new_quote.quoting_metrics.close_records_stored
                < old_quote.quoting_metrics.close_records_stored then
            some false
          else if new_quote.quoting_metrics.received_payment_count
              < old_quote.quoting_metrics.received_payment_count then
            some false
          else
            some true

/-- The older quote of a pair, by the ordering `historical_verify` uses. -/
def old_of (a b : PaymentQuote) : PaymentQuote :=
  if is_newer_than a b then b else a

/-- The newer quote of a pair, by the ordering `historical_verify` uses. -/
def new_of (a b : PaymentQuote) : PaymentQuote :=
  if is_newer_than a b then a else b

/-- The body of `historical_verify` after the pair has been ordered. -/
def hv_ordered (old_quote new_quote : PaymentQuote) (now : SystemTime) : Bool :=
  if new_quote.quoting_metrics.live_time < old_quote.quoting_metrics.live_time then
    false
  else
    match duration_since now old_quote.timestamp with
    | none => false
    | some old_elapsed =>
      match duration_since now new_quote.timestamp with
      | none => false
      | some new_elapsed =>
        let time_diff := as_secs old_elapsed - as_secs new_elapsed
        let live_time_diff :=
          new_quote.quoting_metrics.live_time - old_quote.quoting_metrics.live_time
        if live_time_diff > time_diff + 10 then
          false
        else if new_quote.quoting_metrics.close_records_stored + 20
              < new_quote.quoting_metrics.max_records
            && new_quote.quoting_metrics.close_records_stored
              < old_quote.quoting_metrics.close_records_stored then
          false
        else if new_quote.quoting_metrics.received_payment_count
            < old_quote.quoting_metrics.received_payment_count then
          false
        else
          true

lemma historical_verify_eq_ordered (a b : PaymentQuote) (now : SystemTime) :
    historical_verify a b now = hv_ordered (old_of a b) (new_of a b) now := rfl

lemma duration_since_of_le {earlier now : SystemTime} (h : earlier ≤ now) :
    duration_since now earlier = some (now - earlier).toNat := by
  simp [duration_since, h]

lemma duration_since_of_lt {earlier now : SystemTime} (h : now < earlier) :
    duration_since now earlier = none := by
  simp [duration_since, not_le.mpr h]

lemma hv_ordered_eq_true_iff (o n : PaymentQuote) (now : SystemTime)
    (ho : o.timestamp ≤ now) (hn : n.timestamp ≤ now) :
    hv_ordered o n now = true ↔
      o.quoting_metrics.live_time ≤ n.quoting_metrics.live_time ∧
      n.quoting_metrics.live_time - o.quoting_metrics.live_time ≤
        (as_secs (now - o.timestamp).toNat - as_secs (now - n.timestamp).toNat) + 10 ∧
      ¬(n.quoting_metrics.close_records_stored < o.quoting_metrics.close_records_stored ∧
        n.quoting_metrics.close_records_stored + 20 < n.quoting_metrics.max_records) ∧
      o.quoting_metrics.received_payment_count ≤ n.quoting_metrics.received_payment_count := by
  unfold hv_ordered
  rw [duration_since_of_le ho, duration_since_of_le hn]
  simp only [Bool.and_eq_true, decide_eq_true_eq, gt_iff_lt]
  split_ifs with h1 h2 h3 h4 <;> simp_all <;> omega

lemma old_of_timestamp_le (a b : PaymentQuote) (now : SystemTime)
    (ha : a.timestamp ≤ now) (hb : b.timestamp ≤ now) :
    (old_of a b).timestamp ≤ now := by
  unfold old_of; split <;> assumption

lemma new_of_timestamp_le (a b : PaymentQuote) (now : SystemTime)
    (ha : a.timestamp ≤ now) (hb : b.timestamp ≤ now) :
    (new_of a b).timestamp ≤ now := by
  unfold new_of; split <;> assumption

/- Example values used by the concrete witnesses below. -/

/-- Example older metrics: 10 h uptime, 5 of 100 records, 2 payments. -/
def qmEarly : QuotingMetrics :=
  { close_records_stored := 5, max_records := 100
    received_payment_count := 2, live_time := 10 }

/-- Example newer metrics: 11 h uptime, 6 of 100 records, 3 payments. -/
def qmLate : QuotingMetrics :=
  { close_records_stored := 6, max_records := 100
    received_payment_count := 3, live_time := 11 }

/-- Example quote issued at the epoch with `qmEarly`. -/
def quoteT0 : PaymentQuote :=
  { content := [], cost := 0, timestamp := 0
    quoting_metrics := qmEarly, signature := [] }

/-- Example quote issued one hour after the epoch with `qmLate`. -/
def quoteT1 : PaymentQuote :=
  { content := [], cost := 0, timestamp := 3600000000000
    quoting_metrics := qmLate, signature := [] }

/-- Claim C1: with `now` at or after both timestamps, `historical_verify`
returns `true` exactly when, for the timestamp-ordered pair `(old, new)`:
`new.live_time >= old.live_time`; the live-time growth is at most the
saturating difference of the two elapsed-seconds values plus 10; it is not
the case that `close_records_stored` decreased while the newer quote has
more than 20 records of headroom; and `received_payment_count` did not
decrease. -/
theorem historical_verify_characterization (a b : PaymentQuote) (now : SystemTime)
    (ha : a.timestamp ≤ now) (hb : b.timestamp ≤ now) :
    historical_verify a b now = true ↔
      (old_of a b).quoting_metrics.live_time ≤ (new_of a b).quoting_metrics.live_time ∧
      (new_of a b).quoting_metrics.live_time - (old_of a b).quoting_metrics.live_time ≤
        (as_secs (now - (old_of a b).timestamp).toNat -
          as_secs (now - (new_of a b).timestamp).toNat) + 10 ∧
      ¬((new_of a b).quoting_metrics.close_records_stored <
          (old_of a b).quoting_metrics.close_records_stored ∧
        (new_of a b).quoting_metrics.close_records_stored + 20 <
          (new_of a b).quoting_metrics.max_records) ∧
      (old_of a b).quoting_metrics.received_payment_count ≤
        (new_of a b).quoting_metrics.received_payment_count := by
  rw [historical_verify_eq_ordered]
  exact hv_ordered_eq_true_iff _ _ _ (old_of_timestamp_le a b now ha hb)
    (new_of_timestamp_le a b now ha hb)

/-- Witness for C1 at `quoteT0`, `quoteT1`, one hour after the epoch. -/
theorem historical_verify_characterization_witness :
    (quoteT0.timestamp ≤ (3600000000000 : SystemTime) ∧
      quoteT1.timestamp ≤ (3600000000000 : SystemTime)) ∧
    (historical_verify quoteT0 quoteT1 3600000000000 = true ↔
      (old_of quoteT0 quoteT1).quoting_metrics.live_time ≤
        (new_of quoteT0 quoteT1).quoting_metrics.live_time ∧
      (new_of quoteT0 quoteT1).quoting_metrics.live_time -
          (old_of quoteT0 quoteT1).quoting_metrics.live_time ≤
        (as_secs ((3600000000000 : SystemTime) - (old_of quoteT0 quoteT1).timestamp).toNat -
          as_secs ((3600000000000 : SystemTime) - (new_of quoteT0 quoteT1).timestamp).toNat) + 10 ∧
      ¬((new_of quoteT0 quoteT1).quoting_metrics.close_records_stored <
          (old_of quoteT0 quoteT1).quoting_metrics.close_records_stored ∧
        (new_of quoteT0 quoteT1).quoting_metrics.close_records_stored + 20 <
          (new_of quoteT0 quoteT1).quoting_metrics.max_records) ∧
      (old_of quoteT0 quoteT1).quoting_metrics.received_payment_count ≤
        (new_of quoteT0 quoteT1).quoting_metrics.received_payment_count) :=
  ⟨⟨by decide, by decide⟩,
    historical_verify_characterization quoteT0 quoteT1 3600000000000 (by decide) (by decide)⟩

/-- Claim C3: `has_expired` is `true` exactly when `now` precedes the quote's
timestamp or the whole-seconds duration from the timestamp to `now` exceeds
3600; at exactly 3600 seconds it is `false`, at 3601 seconds `true`. -/
theorem has_expired_characterization (q : PaymentQuote) (now : SystemTime) :
    (has_expired q now = true ↔
      now < q.timestamp ∨ 3600 < as_secs (now - q.timestamp).toNat) ∧
    has_expired q (q.timestamp + 3600 * 1000000000) = false ∧
    has_expired q (q.timestamp + 3601 * 1000000000) = true := by
  refine ⟨?_, ?_, ?_⟩
  · unfold has_expired
    by_cases h : q.timestamp ≤ now
    · rw [duration_since_of_le h]
      simp only [decide_eq_true_eq, gt_iff_lt, QUOTE_EXPIRATION_SECS]
      have : ¬now < q.timestamp := not_lt.mpr h
      tauto
    · rw [duration_since_of_lt (not_le.mp h)]
      simp [not_le.mp h]
  · have h : q.timestamp ≤ q.timestamp + 3600 * 1000000000 :=
      le_add_of_nonneg_right (by norm_num)
    unfold has_expired
    rw [duration_since_of_le h]
    simp only [decide_eq_false_iff_not, gt_iff_lt, not_lt, QUOTE_EXPIRATION_SECS, as_secs,
      nanosPerSec]
    omega
  · have h : q.timestamp ≤ q.timestamp + 3601 * 1000000000 :=
      le_add_of_nonneg_right (by norm_num)
    unfold has_expired
    rw [duration_since_of_le h]
    simp only [decide_eq_true_eq, gt_iff_lt, QUOTE_EXPIRATION_SECS, as_secs, nanosPerSec]
    omega

/-- Claim C4: for a timestamp at or after the epoch, `bytes_for_signing` is
exactly the concatenation of the content bytes, the amount's canonical byte
encoding, the little-endian 8-byte whole-seconds-since-epoch encoding, and
the codec serialization of the metrics (empty on codec failure); and it is
deterministic — equal inputs give byte-identical output. -/
theorem bytes_for_signing_layout (ser : QuotingMetrics → Option (List Nat))
    (xorname : XorName) (cost : NanoTokens) (timestamp : SystemTime)
    (quoting_metrics : QuotingMetrics) (h : UNIX_EPOCH ≤ timestamp) :
    bytes_for_signing ser xorname cost timestamp quoting_metrics =
      some (xorname ++ cost_to_bytes cost ++
        u64_to_le_bytes (as_secs (timestamp - UNIX_EPOCH).toNat) ++
        (match ser quoting_metrics with
          | some quoting_metrics_vec => quoting_metrics_vec
          | none => [])) ∧
    (∀ ser2 xorname2 cost2 timestamp2 quoting_metrics2,
      ser2 = ser → xorname2 = xorname → cost2 = cost → timestamp2 = timestamp →
      quoting_metrics2 = quoting_metrics →
      bytes_for_signing ser2 xorname2 cost2 timestamp2 quoting_metrics2 =
        bytes_for_signing ser xorname cost timestamp quoting_metrics) := by
  constructor
  · unfold bytes_for_signing
    rw [duration_since_of_le h]
  · intro ser2 xorname2 cost2 timestamp2 quoting_metrics2 h1 h2 h3 h4 h5
    rw [h1, h2, h3, h4, h5]

/-- Example codec for the witnesses: always fails, exercising the
empty-substitution branch. -/
def serFail : QuotingMetrics → Option (List Nat) := fun _ => none

/-- Witness for C4 at a concrete input five seconds after the epoch. -/
theorem bytes_for_signing_layout_witness :
    UNIX_EPOCH ≤ (5000000000 : SystemTime) ∧
    (bytes_for_signing serFail [1, 2, 3] 7 5000000000 qmEarly =
      some ([1, 2, 3] ++ cost_to_bytes 7 ++
        u64_to_le_bytes (as_secs ((5000000000 : SystemTime) - UNIX_EPOCH).toNat) ++
        (match serFail qmEarly with
          | some quoting_metrics_vec => quoting_metrics_vec
          | none => [])) ∧
    (∀ ser2 xorname2 cost2 timestamp2 quoting_metrics2,
      ser2 = serFail → xorname2 = [1, 2, 3] → cost2 = 7 → timestamp2 = 5000000000 →
      quoting_metrics2 = qmEarly →
      bytes_for_signing ser2 xorname2 cost2 timestamp2 quoting_metrics2 =
        bytes_for_signing serFail [1, 2, 3] 7 5000000000 qmEarly)) :=
  ⟨by decide, bytes_for_signing_layout serFail [1, 2, 3] 7 5000000000 qmEarly (by decide)⟩

/-- Claim C5: `bytes_for_signing` completes without panicking exactly when the
timestamp is at or after the Unix epoch; the fatal epoch-underflow branch
(`none` in this model) is reachable only for pre-epoch timestamps. -/
theorem bytes_for_signing_no_panic (ser : QuotingMetrics → Option (List Nat))
    (xorname : XorName) (cost : NanoTokens) (timestamp : SystemTime)
    (quoting_metrics : QuotingMetrics) :
    (bytes_for_signing ser xorname cost timestamp quoting_metrics).isSome = true ↔
      UNIX_EPOCH ≤ timestamp := by
  unfold bytes_for_signing
  by_cases h : UNIX_EPOCH ≤ timestamp
  · rw [duration_since_of_le h]
    simp [h]
  · rw [duration_since_of_lt (not_le.mp h)]
    simp [h]

/-- Metrics claiming 5 hours of uptime and nothing else. -/
def qmLive5 : QuotingMetrics :=
  { close_records_stored := 0, max_records := 0
    received_payment_count := 0, live_time := 5 }

/-- Metrics claiming 3 hours of uptime and nothing else. -/
def qmLive3 : QuotingMetrics :=
  { close_records_stored := 0, max_records := 0
    received_payment_count := 0, live_time := 3 }

/-- Quote at the epoch carrying `qmLive5`. -/
def quoteLive5 : PaymentQuote :=
  { content := [], cost := 0, timestamp := 0
    quoting_metrics := qmLive5, signature := [] }

/-- Quote at the same instant carrying `qmLive3`. -/
def quoteLive3 : PaymentQuote :=
  { content := [], cost := 0, timestamp := 0
    quoting_metrics := qmLive3, signature := [] }

/-- Counterexample to claim C2 as stated: at equal timestamps the ordering
defaults to `(self, other)`, so with `live_time` 5 vs 3 one direction fails
the monotonicity check and the other passes every check. -/
theorem historical_verify_not_symmetric :
    ¬(historical_verify quoteLive5 quoteLive3 0 =
      historical_verify quoteLive3 quoteLive5 0) := by decide

/-- Claim C2 (amended): `historical_verify(a, b) = historical_verify(b, a)`
whenever the two timestamps differ (the timestamp ordering then produces the
same `(old, new)` pair for both argument orders); at equal timestamps the
results can differ, as `historical_verify_not_symmetric` shows. -/
theorem historical_verify_symm_of_ne_timestamp (a b : PaymentQuote)
    (now : SystemTime) (h : a.timestamp ≠ b.timestamp) :
    historical_verify a b now = historical_verify b a now := by
  rw [historical_verify_eq_ordered, historical_verify_eq_ordered]
  rcases lt_or_gt_of_ne h with hlt | hlt
  · have h1 : is_newer_than a b = false := by
      simp only [is_newer_than, decide_eq_false_iff_not]
      exact not_lt.mpr (le_of_lt hlt)
    have h2 : is_newer_than b a = true := by
      simp only [is_newer_than, decide_eq_true_eq]
      exact hlt
    simp [old_of, new_of, h1, h2]
  · have h1 : is_newer_than a b = true := by
      simp only [is_newer_than, decide_eq_true_eq]
      exact hlt
    have h2 : is_newer_than b a = false := by
      simp only [is_newer_than, decide_eq_false_iff_not]
      exact not_lt.mpr (le_of_lt hlt)
    simp [old_of, new_of, h1, h2]

/-- Witness for the amended C2 at two quotes one hour apart. -/
theorem historical_verify_symm_witness :
    quoteT0.timestamp ≠ quoteT1.timestamp ∧
    historical_verify quoteT0 quoteT1 3600000000000 =
      historical_verify quoteT1 quoteT0 3600000000000 :=
  ⟨by decide, historical_verify_symm_of_ne_timestamp quoteT0 quoteT1 3600000000000 (by decide)⟩

/-- Claim C6: when either quote's timestamp lies in the future of `now`,
`historical_verify` returns `false`; the embedded function is total, so no
panic is possible on a clock-order anomaly. -/
theorem historical_verify_future_false (a b : PaymentQuote) (now : SystemTime)
    (h : now < a.timestamp ∨ now < b.timestamp) :
    historical_verify a b now = false := by
  rw [historical_verify_eq_ordered]
  have hone : now < (old_of a b).timestamp ∨ now < (new_of a b).timestamp := by
    unfold old_of new_of
    split <;> tauto
  unfold hv_ordered
  rcases hone with h1 | h1
  · rw [duration_since_of_lt h1]
    split <;> rfl
  · by_cases h2 : (old_of a b).timestamp ≤ now
    · rw [duration_since_of_le h2, duration_since_of_lt h1]
      split <;> rfl
    · rw [duration_since_of_lt (not_le.mp h2)]
      split <;> rfl

/-- Witness for C6: a quote issued after `now` is rejected. -/
theorem historical_verify_future_false_witness :
    ((0 : SystemTime) < quoteT0.timestamp ∨ (0 : SystemTime) < quoteT1.timestamp) ∧
    historical_verify quoteT0 quoteT1 0 = false :=
  ⟨Or.inr (by decide), historical_verify_future_false quoteT0 quoteT1 0 (Or.inr (by decide))⟩

/-- Claim C7: when `now` covers both timestamps and the live-time, live-time
growth and payment-count checks all pass, `historical_verify` is `false`
exactly when the newer quote's `close_records_stored` decreased while
`close_records_stored + 20 < max_records`; a decrease with
`close_records_stored + 20 >= max_records` does not by itself force `false`. -/
theorem historical_verify_records_check (a b : PaymentQuote) (now : SystemTime)
    (ha : a.timestamp ≤ now) (hb : b.timestamp ≤ now)
    (hlive : (old_of a b).quoting_metrics.live_time ≤
      (new_of a b).quoting_metrics.live_time)
    (hdiff : (new_of a b).quoting_metrics.live_time -
        (old_of a b).quoting_metrics.live_time ≤
      (as_secs (now - (old_of a b).timestamp).toNat -
        as_secs (now - (new_of a b).timestamp).toNat) + 10)
    (hpay : (old_of a b).quoting_metrics.received_payment_count ≤
      (new_of a b).quoting_metrics.received_payment_count) :
    historical_verify a b now = false ↔
      ((new_of a b).quoting_metrics.close_records_stored <
        (old_of a b).quoting_metrics.close_records_stored ∧
       (new_of a b).quoting_metrics.close_records_stored + 20 <
        (new_of a b).quoting_metrics.max_records) := by
  have hiff := hv_ordered_eq_true_iff (old_of a b) (new_of a b) now
    (old_of_timestamp_le a b now ha hb) (new_of_timestamp_le a b now ha hb)
  rw [historical_verify_eq_ordered, Bool.eq_false_iff, Ne, hiff]
  tauto

/-- Witness for C7 at `quoteT0`, `quoteT1`, one hour after the epoch. -/
theorem historical_verify_records_check_witness :
    (quoteT0.timestamp ≤ (3600000000000 : SystemTime) ∧
      quoteT1.timestamp ≤ (3600000000000 : SystemTime) ∧
      (old_of quoteT0 quoteT1).quoting_metrics.live_time ≤
        (new_of quoteT0 quoteT1).quoting_metrics.live_time ∧
      (new_of quoteT0 quoteT1).quoting_metrics.live_time -
          (old_of quoteT0 quoteT1).quoting_metrics.live_time ≤
        (as_secs ((3600000000000 : SystemTime) - (old_of quoteT0 quoteT1).timestamp).toNat -
          as_secs ((3600000000000 : SystemTime) - (new_of quoteT0 quoteT1).timestamp).toNat) + 10 ∧
      (old_of quoteT0 quoteT1).quoting_metrics.received_payment_count ≤
        (new_of quoteT0 quoteT1).quoting_metrics.received_payment_count) ∧
    (historical_verify quoteT0 quoteT1 3600000000000 = false ↔
      ((new_of quoteT0 quoteT1).quoting_metrics.close_records_stored <
        (old_of quoteT0 quoteT1).quoting_metrics.close_records_stored ∧
       (new_of quoteT0 quoteT1).quoting_metrics.close_records_stored + 20 <
        (new_of quoteT0 quoteT1).quoting_metrics.max_records)) :=
  ⟨⟨by decide, by decide, by decide, by decide, by decide⟩,
    historical_verify_records_check quoteT0 quoteT1 3600000000000
      (by decide) (by decide) (by decide) (by decide) (by decide)⟩

/-- Claim C8: `to_payment` always succeeds (it is a total function) and yields
a `Payment` whose transfers are exactly `[transfer.0, royalties.0]` in that
order and whose quote equals the source quote; the source value is unchanged
(all operations here are pure). -/
theorem to_payment_spec (pd : PaymentDetails) :
    pd.to_payment.transfers = [pd.transfer.1, pd.royalties.1] ∧
    pd.to_payment.transfers.length = 2 ∧
    pd.to_payment.quote = pd.quote :=
  ⟨rfl, rfl, rfl⟩

lemma hv_ordered_congr (o o2 n n2 : PaymentQuote) (now : SystemTime)
    (hot : o.timestamp = o2.timestamp) (hom : o.quoting_metrics = o2.quoting_metrics)
    (hnt : n.timestamp = n2.timestamp) (hnm : n.quoting_metrics = n2.quoting_metrics) :
    hv_ordered o n now = hv_ordered o2 n2 now := by
  unfold hv_ordered
  rw [hot, hom, hnt, hnm]

/-- Claim C9: `historical_verify` reads only the two quotes' timestamps and
quoting metrics (besides `now`); quotes agreeing on those fields but differing
in content, cost or signature give the same result — in particular no
signature is inspected. -/
theorem historical_verify_depends_only_on_time_and_metrics
    (a a2 b b2 : PaymentQuote) (now : SystemTime)
    (h1 : a.timestamp = a2.timestamp) (h2 : a.quoting_metrics = a2.quoting_metrics)
    (h3 : b.timestamp = b2.timestamp) (h4 : b.quoting_metrics = b2.quoting_metrics) :
    historical_verify a b now = historical_verify a2 b2 now := by
  have hcond : is_newer_than a b = is_newer_than a2 b2 := by
    unfold is_newer_than
    rw [h1, h3]
  rw [historical_verify_eq_ordered, historical_verify_eq_ordered]
  apply hv_ordered_congr
  · unfold old_of
    rw [hcond]
    by_cases hc : is_newer_than a2 b2 <;> simp [hc, h1, h3]
  · unfold old_of
    rw [hcond]
    by_cases hc : is_newer_than a2 b2 <;> simp [hc, h2, h4]
  · unfold new_of
    rw [hcond]
    by_cases hc : is_newer_than a2 b2 <;> simp [hc, h1, h3]
  · unfold new_of
    rw [hcond]
    by_cases hc : is_newer_than a2 b2 <;> simp [hc, h2, h4]

/-- A copy of `quoteT0` with different content, cost and signature. -/
def quoteT0Alt : PaymentQuote :=
  { content := [9, 9, 9], cost := 1234, timestamp := 0
    quoting_metrics := qmEarly, signature := [1, 2, 3] }

/-- A copy of `quoteT1` with different content, cost and signature. -/
def quoteT1Alt : PaymentQuote :=
  { content := [8], cost := 77, timestamp := 3600000000000
    quoting_metrics := qmLate, signature := [4, 5] }

/-- Witness for C9: varying content, cost and signature leaves the result
unchanged. -/
theorem historical_verify_depends_only_witness :
    (quoteT0.timestamp = quoteT0Alt.timestamp ∧
      quoteT0.quoting_metrics = quoteT0Alt.quoting_metrics ∧
      quoteT1.timestamp = quoteT1Alt.timestamp ∧
      quoteT1.quoting_metrics = quoteT1Alt.quoting_metrics) ∧
    historical_verify quoteT0 quoteT1 3600000000000 =
      historical_verify quoteT0Alt quoteT1Alt 3600000000000 :=
  ⟨⟨by decide, by decide, by decide, by decide⟩,
    historical_verify_depends_only_on_time_and_metrics quoteT0 quoteT0Alt quoteT1 quoteT1Alt
      3600000000000 (by decide) (by decide) (by decide) (by decide)⟩

/-- Claim C10: replacing the source's unchecked `live_time` subtraction by a
checked one never hits the underflow marker: the guard at the top of
`historical_verify` has already returned `false` whenever the newer quote's
`live_time` is smaller, so the checked variant always returns `some` of the
plain result. -/
theorem historical_verify_checked_no_underflow (a b : PaymentQuote)
    (now : SystemTime) :
    historical_verify_checked a b now = some (historical_verify a b now) := by
  unfold historical_verify_checked historical_verify
  by_cases h1 : (if is_newer_than a b then a else b).quoting_metrics.live_time <
      (if is_newer_than a b then b else a).quoting_metrics.live_time
  · simp [h1]
  · cases hdo : duration_since now (if is_newer_than a b then b else a).timestamp with
    | none => simp [h1, hdo]
    | some old_elapsed =>
      cases hdn : duration_since now (if is_newer_than a b then a else b).timestamp with
      | none => simp [h1, hdo, hdn]
      | some new_elapsed =>
        simp [h1, hdo, hdn, checked_sub, not_lt.mp h1]
        split_ifs <;> simp_all <;> omega

end DataPayments
